import Mathlib

/-!
Shallow embedding of the `pydantic-ai-todo` repository: the `Todo` /
`TodoItem` data model (`types.py`), the in-memory storage (`storage.py`),
and the tool surface — `read_todos`, `write_todos`,
`get_todo_system_prompt` and the `create_todo_toolset` factory
(`toolset.py`).

Modelling choices:
- A pydantic model field typed `Literal["pending", "in_progress", "completed"]`
  is embedded as a plain `String` field together with an explicit
  validation function (`Todo.model_validate` / `TodoItem.model_validate`)
  returning `Except`, mirroring how pydantic validates at construction.
- The Python dict `{"pending": 0, "in_progress": 0, "completed": 0}` used
  for tallying is embedded as the `Counts` structure; `counts[s] += 1`
  becomes `Counts.incr`, which returns `none` for a key outside the three
  (a Python `KeyError`).  A tool body that would raise is `Option`-valued:
  `none` models the raised exception.
- The storage captured by the tool closures is embedded by explicit state
  passing; for claims about the isolation of separately allocated default
  storages, a `World` of allocated stores indexed by allocation order
  models Python object identity.
-/

namespace PydanticAiTodo

/-- `Todo` from `types.py`: the stored record with `content`, `status`,
`active_form`.  The `status` field is a `String`; the `Literal` constraint
is the separate validation function below. -/
structure Todo where
  content : String
  status : String
  active_form : String
deriving DecidableEq, Repr

/-- `TodoItem` from `types.py`: the input model for `write_todos`, with the
same three fields (the Python class differs from `Todo` only in attached
field descriptions for the LLM, not in validation). -/
structure TodoItem where
  content : String
  status : String
  active_form : String
deriving DecidableEq, Repr

/-- The `Literal["pending", "in_progress", "completed"]` constraint on the
`status` field of both models. -/
def validStatus (s : String) : Bool :=
  s == "pending" || s == "in_progress" || s == "completed"

/-- Pydantic construction/validation of a `Todo`: succeeds exactly when
the status is one of the three literals. -/
def Todo.model_validate (c s a : String) : Except String Todo :=
  if validStatus s then .ok ⟨c, s, a⟩
  else .error "validation error: status must be pending, in_progress or completed"

/-- Pydantic construction/validation of a `TodoItem`. -/
def TodoItem.model_validate (c s a : String) : Except String TodoItem :=
  if validStatus s then .ok ⟨c, s, a⟩
  else .error "validation error: status must be pending, in_progress or completed"

/-- `TodoStorage` from `storage.py`: the default in-memory storage, a
dataclass holding one field `_todos` (default: fresh empty list). -/
structure TodoStorage where
  _todos : List Todo
deriving DecidableEq, Repr

/-- The `todos` property getter of `TodoStorage`. -/
def TodoStorage.todos (s : TodoStorage) : List Todo :=
  s._todos

/-- The `todos` property setter of `TodoStorage`: unconditionally replaces
the held list. -/
def TodoStorage.set_todos (s : TodoStorage) (v : List Todo) : TodoStorage :=
  { s with _todos := v }

/-- `TodoStorage()` with the dataclass default: `_todos` is created empty
by the `default_factory`. -/
def TodoStorage.default : TodoStorage :=
  ⟨[]⟩

/-- The status-glyph lookup shared by `read_todos` and
`get_todo_system_prompt`:
`{"pending": "[ ]", "in_progress": "[*]", "completed": "[x]"}.get(status, "[ ]")`. -/
def statusIcon (s : String) : String :=
  if s == "pending" then "[ ]"
  else if s == "in_progress" then "[*]"
  else if s == "completed" then "[x]"
  else "[ ]"

/-- The tally dict `{"pending": 0, "in_progress": 0, "completed": 0}`. -/
structure Counts where
  pending : Nat
  in_progress : Nat
  completed : Nat
deriving DecidableEq, Repr

/-- `counts[s] += 1`: `none` models the `KeyError` raised when `s` is not
one of the three dict keys. -/
def Counts.incr (c : Counts) (s : String) : Option Counts :=
  if s == "pending" then some { c with pending := c.pending + 1 }
  else if s == "in_progress" then some { c with in_progress := c.in_progress + 1 }
  else if s == "completed" then some { c with completed := c.completed + 1 }
  else none

/-- The `for todo in todos: counts[todo.status] += 1` loop, starting from
an accumulator. -/
def tallyFrom (c : Counts) : List Todo → Option Counts
  | [] => some c
  | t :: ts =>
    match c.incr t.status with
    | none => none
    | some c2 => tallyFrom c2 ts

/-- The tally loop started from the all-zero dict. -/
def tally (todos : List Todo) : Option Counts :=
  tallyFrom ⟨0, 0, 0⟩ todos

/-- `"{completed} completed, {in_progress} in progress, {pending} pending"`. -/
def summaryCounts (c : Counts) : String :=
  toString c.completed ++ " completed, " ++ toString c.in_progress
    ++ " in progress, " ++ toString c.pending ++ " pending"

/-- `"\n".join(lines)` on a list of lines. -/
def joinLines : List String → String
  | [] => ""
  | [l] => l
  | l :: ls => l ++ "\n" ++ joinLines ls

/-- The `for i, todo in enumerate(todos, 1)` loop building the item lines
of `read_todos`, with the running 1-based index made explicit. -/
def renderLines (i : Nat) : List Todo → List String
  | [] => []
  | t :: ts =>
    (toString i ++ ". " ++ statusIcon t.status ++ " " ++ t.content)
      :: renderLines (i + 1) ts

/-- The body of the `read_todos` tool over the current list of the
captured storage.  `none` models a raised exception (the `KeyError` possible in the
tally loop); every normal return is `some`. -/
def read_todos (store : List Todo) : Option String :=
  if store.isEmpty then
    some "No todos in the list. Use write_todos to create tasks."
  else
    let lines := "Current todos:" :: renderLines 1 store
    match tally store with
    | none => none
    | some c => some (joinLines (lines ++ ["", "Summary: " ++ summaryCounts c]))

/-- Field-for-field conversion `Todo(content=t.content, status=t.status,
active_form=t.active_form)` done by `write_todos` on each input item. -/
def itemToTodo (t : TodoItem) : Todo :=
  ⟨t.content, t.status, t.active_form⟩

/-- The body of the `write_todos` tool on the prior storage list (which
the body never reads — it is replaced wholesale): the new storage list
together with the returned summary (`none` models the `KeyError` possible
in the tally loop, raised after the storage assignment). -/
def write_todos (items : List TodoItem) (_store : List Todo) :
    List Todo × Option String :=
  let newTodos := items.map itemToTodo
  match tally newTodos with
  | none => (newTodos, none)
  | some c =>
    (newTodos,
     some ("Updated " ++ toString items.length ++ " todos: " ++ summaryCounts c))

/-- A raw `write_todos` argument before pydantic validation: the
`(content, status, active_form)` strings of one item. -/
def RawItem := String × String × String

/-- The pydantic-ai argument-parsing step: validate every raw item as a
`TodoItem`, failing on the first invalid one, before the tool body runs. -/
def validateItems : List RawItem → Except String (List TodoItem)
  | [] => .ok []
  | (c, s, a) :: rest =>
    match TodoItem.model_validate c s a with
    | .error e => .error e
    | .ok item =>
      match validateItems rest with
      | .error e => .error e
      | .ok items => .ok (item :: items)

/-- A full call of the write tool on a prior storage state: argument
validation first (a failure leaves storage untouched), then the tool body.
Returns the resulting storage list and the outcome. -/
def callWriteTool (raw : List RawItem) (store : List Todo) :
    List Todo × Except String String :=
  match validateItems raw with
  | .error e => (store, .error e)
  | .ok items =>
    match write_todos items store with
    | (newStore, none) => (newStore, .error "KeyError")
    | (newStore, some s) => (newStore, .ok s)

/-- A full call of the read tool on a storage state: the body only reads
the captured storage, so the call returns the state it was given together
with the output. -/
def callReadTool (store : List Todo) : List Todo × Option String :=
  (store, read_todos store)

/-- The `TODO_SYSTEM_PROMPT` constant of `toolset.py` (the triple-quoted
string, leading and trailing newline included). -/
def TODO_SYSTEM_PROMPT : String :=
  "\n## Task Management\n\nYou have access to the `write_todos` tool to track your tasks.\nUse it frequently to:\n- Plan complex tasks before starting\n- Show progress to the user\n- Keep track of what\x27s done and what\x27s pending\n\nWhen working on tasks:\n1. Break down complex tasks into smaller steps\n2. Mark exactly one task as in_progress at a time\n3. Mark tasks as completed immediately after finishing\n"

/-- One `"- {icon} {content}"` line of the Current Todos section. -/
def promptLine (t : Todo) : String :=
  "- " ++ statusIcon t.status ++ " " ++ t.content

/-- `get_todo_system_prompt` from `toolset.py`: `none` is the
`storage=None` default; with a storage, an empty list also yields the
static prompt, a non-empty list appends the Current Todos section. -/
def get_todo_system_prompt (storage : Option TodoStorage) : String :=
  match storage with
  | none => TODO_SYSTEM_PROMPT
  | some s =>
    if s.todos.isEmpty then TODO_SYSTEM_PROMPT
    else
      joinLines (TODO_SYSTEM_PROMPT :: "" :: "## Current Todos"
        :: s.todos.map promptLine)

/-- Whether `pat` occurs as a substring of `s` (contiguous run of
characters). -/
def containsStr (s pat : String) : Bool :=
  decide (pat.data <:+: s.data)

/-- A call of the prompt renderer on an (optional) storage: the renderer
only reads the storage, so the call returns the storage it was given
together with the rendered text. -/
def callPromptRenderer (storage : Option TodoStorage) :
    Option TodoStorage × String :=
  (storage, get_todo_system_prompt storage)

/-- The heap of default `TodoStorage` objects allocated so far, indexed by
allocation order: Python object identity for the aliasing/isolation
claims.  Each `TodoStorage()` call appends a fresh empty store. -/
structure World where
  stores : List (List Todo)
deriving DecidableEq, Repr

/-- The list held by the storage object at index `i`. -/
def World.getStore (w : World) (i : Nat) : List Todo :=
  (w.stores[i]?).getD []

/-- Replace the list held by the storage object at index `i`. -/
def World.setStore (w : World) (i : Nat) (l : List Todo) : World :=
  ⟨w.stores.set i l⟩

/-- `create_todo_toolset()` with `storage=None`: allocates a fresh
`TodoStorage()` (empty list) and returns the world after allocation and
the index of the new storage, which the closures of the returned
toolset capture. -/
def create_todo_toolset (w : World) : World × Nat :=
  (⟨w.stores ++ [[]]⟩, w.stores.length)

/-- Invoking the write tool of the toolset bound to storage `i`. -/
def toolsetWrite (w : World) (i : Nat) (raw : List RawItem) :
    World × Except String String :=
  let r := callWriteTool raw (w.getStore i)
  (w.setStore i r.1, r.2)

/-- A sequence of write-tool invocations through the toolset bound to
storage `i`. -/
def runWrites (w : World) (i : Nat) (batches : List (List RawItem)) : World :=
  batches.foldl (fun w b => (toolsetWrite w i b).1) w

/-- The status count as the spec reads it: the number of records in the
list whose status equals `s`. -/
def countStatus (l : List Todo) (s : String) : Nat :=
  (l.filter (fun t => t.status == s)).length

/-! ### Helper lemmas -/

theorem getStore_setStore_ne (w : World) {i j : Nat} (h : i ≠ j)
    (l : List Todo) : (w.setStore i l).getStore j = w.getStore j := by
  simp [World.setStore, World.getStore, List.getElem?_set_ne h]

theorem incr_pending (c : Counts) :
    c.incr "pending" = some ⟨c.pending + 1, c.in_progress, c.completed⟩ := rfl

theorem incr_in_progress (c : Counts) :
    c.incr "in_progress" = some ⟨c.pending, c.in_progress + 1, c.completed⟩ := rfl

theorem incr_completed (c : Counts) :
    c.incr "completed" = some ⟨c.pending, c.in_progress, c.completed + 1⟩ := rfl

theorem tallyFrom_valid (l : List Todo) (c : Counts)
    (hv : ∀ t ∈ l, validStatus t.status = true) :
    tallyFrom c l = some
      ⟨c.pending + countStatus l "pending",
       c.in_progress + countStatus l "in_progress",
       c.completed + countStatus l "completed"⟩ := by
  induction l generalizing c with
  | nil => simp [tallyFrom, countStatus]
  | cons t ts ih =>
    have ht := hv t (by simp)
    have hts : ∀ x ∈ ts, validStatus x.status = true := by
      intro x hx; exact hv x (by simp [hx])
    simp only [validStatus, Bool.or_eq_true, beq_iff_eq] at ht
    rcases ht with (h1 | h2) | h3
    · simp only [tallyFrom, h1, incr_pending]
      rw [ih _ hts]
      simp [countStatus, List.filter_cons, h1]
      omega
    · simp only [tallyFrom, h2, incr_in_progress]
      rw [ih _ hts]
      simp [countStatus, List.filter_cons, h2]
      omega
    · simp only [tallyFrom, h3, incr_completed]
      rw [ih _ hts]
      simp [countStatus, List.filter_cons, h3]
      omega

theorem tally_valid (l : List Todo)
    (hv : ∀ t ∈ l, validStatus t.status = true) :
    tally l = some
      ⟨countStatus l "pending", countStatus l "in_progress",
       countStatus l "completed"⟩ := by
  rw [tally, tallyFrom_valid l _ hv]
  simp

theorem joinLines_cons (a : String) (rest : List String) (h : rest ≠ []) :
    joinLines (a :: rest) = a ++ "\n" ++ joinLines rest := by
  cases rest with
  | nil => exact absurd rfl h
  | cons b bs => rfl

theorem joinLines_append_end (xs : List String) (s : String) (h : xs ≠ []) :
    joinLines (xs ++ ["", s]) = joinLines xs ++ "\n\n" ++ s := by
  induction xs with
  | nil => exact absurd rfl h
  | cons x xs ih =>
    cases xs with
    | nil =>
      show x ++ "\n" ++ joinLines ["", s] = x ++ "\n\n" ++ s
      have h1 : joinLines ["", s] = "" ++ "\n" ++ s := rfl
      have h3 : ("\n" : String) ++ ("\n" ++ s) = "\n\n" ++ s := by
        rw [← String.append_assoc]
        have h4 : ("\n" : String) ++ "\n" = "\n\n" := by decide
        rw [h4]
      rw [h1, String.empty_append, String.append_assoc, h3,
        ← String.append_assoc]
    | cons y ys =>
      have hne : (y :: ys) ++ ["", s] ≠ [] := by simp
      have step : joinLines ((x :: y :: ys) ++ ["", s]) =
          x ++ "\n" ++ joinLines ((y :: ys) ++ ["", s]) := by
        exact joinLines_cons x _ hne
      rw [step, ih (by simp), joinLines_cons x (y :: ys) (by simp)]
      simp [String.append_assoc]

theorem renderLines_eq_enumFrom (l : List Todo) (k : Nat) :
    renderLines k l = (List.enumFrom k l).map
      (fun p => toString p.1 ++ ". " ++ statusIcon p.2.status
        ++ " " ++ p.2.content) := by
  induction l generalizing k with
  | nil => rfl
  | cons t ts ih => simp [renderLines, List.enumFrom_cons, ih]

theorem incr_valid (c : Counts) (s : String) (hs : validStatus s = true) :
    ∃ c2, c.incr s = some c2 := by
  simp only [validStatus, Bool.or_eq_true, beq_iff_eq] at hs
  rcases hs with (h | h) | h
  · exact ⟨_, by rw [h, incr_pending]⟩
  · exact ⟨_, by rw [h, incr_in_progress]⟩
  · exact ⟨_, by rw [h, incr_completed]⟩

theorem incr_invalid (c : Counts) (s : String) (hs : validStatus s = false) :
    c.incr s = none := by
  simp only [validStatus, Bool.or_eq_false_iff] at hs
  simp [Counts.incr, hs.1.1, hs.1.2, hs.2]

theorem tallyFrom_invalid (l : List Todo)
    (hbad : ∃ t ∈ l, validStatus t.status = false) :
    ∀ c, tallyFrom c l = none := by
  induction l with
  | nil => simp at hbad
  | cons x xs ih =>
    intro c
    by_cases hx : validStatus x.status = true
    · obtain ⟨t, hmem, hft⟩ := hbad
      have htxs : ∃ t ∈ xs, validStatus t.status = false := by
        rcases List.mem_cons.mp hmem with h | h
        · rw [h] at hft; rw [hx] at hft; cases hft
        · exact ⟨t, h, hft⟩
      rcases incr_valid c x.status hx with ⟨c2, hc2⟩
      simp only [tallyFrom, hc2]
      exact ih htxs c2
    · have hx' : validStatus x.status = false := by
        cases h : validStatus x.status
        · rfl
        · exact absurd h hx
      simp only [tallyFrom, incr_invalid c _ hx']

theorem read_todos_cons (t : Todo) (ts : List Todo)
    (hv : ∀ x ∈ t :: ts, validStatus x.status = true) :
    read_todos (t :: ts) =
      some (joinLines (("Current todos:" :: renderLines 1 (t :: ts))
        ++ ["", "Summary: " ++ summaryCounts
             ⟨countStatus (t :: ts) "pending",
              countStatus (t :: ts) "in_progress",
              countStatus (t :: ts) "completed"⟩])) := by
  rw [read_todos, if_neg (show ¬((t :: ts).isEmpty = true) by simp),
    tally_valid _ hv]

set_option maxRecDepth 20000 in
theorem prompt_no_current_todos :
    containsStr TODO_SYSTEM_PROMPT "Current Todos" = false := by
  decide

/-! ### Claim theorems -/

/-- C1: for every list of valid TaskInput items and every prior storage
state, the write tool installs the field-for-field copies of the items as
the whole storage list (prior contents fully discarded, no merge,
order preserved) and returns `"Updated {n} todos: {completed} completed,
{in_progress} in progress, {pending} pending"`, where `n` is the input
length and the three counts are tallied over the newly written list. -/
theorem write_todos_installs_and_summarizes
    (items : List TodoItem) (store : List Todo)
    (hv : ∀ t ∈ items, validStatus t.status = true) :
    write_todos items store =
      (items.map itemToTodo,
       some ("Updated " ++ toString items.length ++ " todos: "
         ++ toString (countStatus (items.map itemToTodo) "completed")
         ++ " completed, "
         ++ toString (countStatus (items.map itemToTodo) "in_progress")
         ++ " in progress, "
         ++ toString (countStatus (items.map itemToTodo) "pending")
         ++ " pending")) := by
  have hv2 : ∀ t ∈ items.map itemToTodo, validStatus t.status = true := by
    intro t ht
    rcases List.mem_map.mp ht with ⟨x, hx, rfl⟩
    exact hv x hx
  rw [write_todos, tally_valid _ hv2]
  simp [summaryCounts, String.append_assoc]

/-- C1 witness: a concrete two-item write over a non-empty prior store. -/
theorem write_todos_installs_and_summarizes_witness :
    (∀ t ∈ ([⟨"Task 1", "pending", "W1"⟩,
             ⟨"Task 2", "in_progress", "W2"⟩] : List TodoItem),
        validStatus t.status = true)
    ∧ write_todos
        [⟨"Task 1", "pending", "W1"⟩, ⟨"Task 2", "in_progress", "W2"⟩]
        [⟨"Old", "completed", "W"⟩] =
      ([⟨"Task 1", "pending", "W1"⟩, ⟨"Task 2", "in_progress", "W2"⟩],
       some "Updated 2 todos: 0 completed, 1 in progress, 1 pending") :=
  ⟨by decide,
   (write_todos_installs_and_summarizes
     [⟨"Task 1", "pending", "W1"⟩, ⟨"Task 2", "in_progress", "W2"⟩]
     [⟨"Old", "completed", "W"⟩] (by decide)).trans (by decide)⟩

/-- C2: for every storage state holding task records (statuses among the
three enumerated values): on the empty list the read tool returns the
fixed no-todos message; on a non-empty list it returns one line per task
in list order, 1-indexed, glyph-prefixed, showing the content field only,
followed by a blank line and a summary line with the completed /
in-progress / pending tallies in that order. -/
theorem read_todos_report_spec (l : List Todo)
    (hv : ∀ t ∈ l, validStatus t.status = true) :
    (l = [] → read_todos l =
      some "No todos in the list. Use write_todos to create tasks.")
    ∧ (l ≠ [] → read_todos l =
      some ("Current todos:\n"
        ++ joinLines ((List.enumFrom 1 l).map (fun p =>
            toString p.1 ++ ". " ++ statusIcon p.2.status
              ++ " " ++ p.2.content))
        ++ "\n\nSummary: "
        ++ toString (countStatus l "completed") ++ " completed, "
        ++ toString (countStatus l "in_progress") ++ " in progress, "
        ++ toString (countStatus l "pending") ++ " pending")) := by
  constructor
  · intro h; rw [h]; rfl
  · intro hne
    obtain ⟨t, ts, rfl⟩ := List.exists_cons_of_ne_nil hne
    rw [read_todos_cons t ts hv]
    have hrest : renderLines 1 (t :: ts) ++
        ["", "Summary: " ++ summaryCounts
          ⟨countStatus (t :: ts) "pending",
           countStatus (t :: ts) "in_progress",
           countStatus (t :: ts) "completed"⟩] ≠ [] := by simp
    have hlines : renderLines 1 (t :: ts) ≠ [] := by simp [renderLines]
    rw [List.cons_append, joinLines_cons _ _ hrest,
      joinLines_append_end _ _ hlines, renderLines_eq_enumFrom]
    have m1 : ("Current todos:" : String) ++ "\n" = "Current todos:\n" := by
      decide
    have m2 : ∀ X : String,
        ("\n\n" : String) ++ ("Summary: " ++ X) = "\n\nSummary: " ++ X := by
      intro X
      rw [← String.append_assoc]
      have h4 : ("\n\n" : String) ++ "Summary: " = "\n\nSummary: " := by decide
      rw [h4]
    rw [m1]
    simp only [summaryCounts, String.append_assoc]
    rw [m2]

/-- C2 witness: a concrete three-item storage exercising all three
glyphs, and the empty case. -/
theorem read_todos_report_spec_witness :
    (∀ t ∈ ([⟨"Task 1", "pending", "W"⟩, ⟨"Task 2", "in_progress", "W"⟩,
             ⟨"Task 3", "completed", "W"⟩] : List Todo),
        validStatus t.status = true)
    ∧ read_todos [] =
        some "No todos in the list. Use write_todos to create tasks."
    ∧ read_todos
        [⟨"Task 1", "pending", "W"⟩, ⟨"Task 2", "in_progress", "W"⟩,
         ⟨"Task 3", "completed", "W"⟩] =
      some "Current todos:\n1. [ ] Task 1\n2. [*] Task 2\n3. [x] Task 3\n\nSummary: 1 completed, 1 in progress, 1 pending" :=
  ⟨by decide,
   (read_todos_report_spec [] (by decide)).1 rfl,
   ((read_todos_report_spec
      [⟨"Task 1", "pending", "W"⟩, ⟨"Task 2", "in_progress", "W"⟩,
       ⟨"Task 3", "completed", "W"⟩] (by decide)).2 (by decide)).trans
     (by decide)⟩

/-- C3: constructing a TaskRecord/TaskInput succeeds exactly when the
status is one of the three enumerated values (and then copies the fields
verbatim); a write-tool call whose argument list contains any invalid
item surfaces the validation error before the tool body runs and leaves
storage completely unchanged — no partial writes. -/
theorem validation_gate_spec :
    (∀ c s a, (∃ t, Todo.model_validate c s a = .ok t)
      ↔ (s = "pending" ∨ s = "in_progress" ∨ s = "completed"))
    ∧ (∀ c s a, (∃ t, TodoItem.model_validate c s a = .ok t)
      ↔ (s = "pending" ∨ s = "in_progress" ∨ s = "completed"))
    ∧ (∀ c s a, validStatus s = true →
        TodoItem.model_validate c s a = .ok ⟨c, s, a⟩)
    ∧ (∀ raw store e, validateItems raw = .error e →
        callWriteTool raw store = (store, .error e)) := by
  refine ⟨?_, ?_, ?_, ?_⟩
  · intro c s a
    constructor
    · rintro ⟨t, ht⟩
      rw [Todo.model_validate] at ht
      by_cases h : validStatus s = true
      · simp only [validStatus, Bool.or_eq_true, beq_iff_eq] at h
        tauto
      · rw [if_neg h] at ht; cases ht
    · intro hd
      have h : validStatus s = true := by
        rcases hd with h | h | h <;> simp [validStatus, h]
      exact ⟨⟨c, s, a⟩, by rw [Todo.model_validate, if_pos h]⟩
  · intro c s a
    constructor
    · rintro ⟨t, ht⟩
      rw [TodoItem.model_validate] at ht
      by_cases h : validStatus s = true
      · simp only [validStatus, Bool.or_eq_true, beq_iff_eq] at h
        tauto
      · rw [if_neg h] at ht; cases ht
    · intro hd
      have h : validStatus s = true := by
        rcases hd with h | h | h <;> simp [validStatus, h]
      exact ⟨⟨c, s, a⟩, by rw [TodoItem.model_validate, if_pos h]⟩
  · intro c s a h
    rw [TodoItem.model_validate, if_pos h]
  · intro raw store e he
    rw [callWriteTool, he]

/-- C3 witness: a valid construction, an invalid one, and a write-tool
call on an invalid item leaving a non-empty prior store untouched. -/
theorem validation_gate_spec_witness :
    (∃ t, TodoItem.model_validate "Task" "pending" "Doing" = .ok t)
    ∧ (¬ ∃ t, TodoItem.model_validate "Task" "invalid" "Doing" = .ok t)
    ∧ TodoItem.model_validate "Task" "pending" "Doing" =
        .ok ⟨"Task", "pending", "Doing"⟩
    ∧ callWriteTool [("Task", "invalid", "Doing")] [⟨"old", "pending", "w"⟩] =
        ([⟨"old", "pending", "w"⟩],
         .error
           "validation error: status must be pending, in_progress or completed") := by
  refine ⟨?_, ?_, ?_, ?_⟩
  · exact (validation_gate_spec.2.1 "Task" "pending" "Doing").mpr (Or.inl rfl)
  · intro hcon
    rcases (validation_gate_spec.2.1 "Task" "invalid" "Doing").mp hcon
      with h | h | h <;> exact absurd h (by decide)
  · exact validation_gate_spec.2.2.1 "Task" "pending" "Doing" (by decide)
  · exact validation_gate_spec.2.2.2 _ _ _ rfl

/-- C4: for every list `l` of task records and every storage, setting the
storage list to `l` through the `todos` setter and reading it back
through the `todos` getter yields exactly `l`, order preserved and
unmodified. -/
theorem storage_set_get_roundtrip (s : TodoStorage) (l : List Todo) :
    (s.set_todos l).todos = l :=
  rfl

/-- C5: the prompt renderer returns the static policy text unmodified for
no storage or an empty-list storage, and its output then never contains
the substring "Current Todos"; for a non-empty list it returns the static
policy text followed by a "Current Todos" section with one glyph-prefixed
line per task in list order. -/
theorem system_prompt_spec :
    (get_todo_system_prompt none = TODO_SYSTEM_PROMPT)
    ∧ (∀ s : TodoStorage, s.todos = [] →
        get_todo_system_prompt (some s) = TODO_SYSTEM_PROMPT)
    ∧ (containsStr (get_todo_system_prompt none) "Current Todos" = false)
    ∧ (∀ s : TodoStorage, s.todos = [] →
        containsStr (get_todo_system_prompt (some s)) "Current Todos" = false)
    ∧ (∀ s : TodoStorage, s.todos ≠ [] →
        get_todo_system_prompt (some s) =
          TODO_SYSTEM_PROMPT ++ "\n\n## Current Todos\n"
            ++ joinLines (s.todos.map promptLine)
        ∧ containsStr (get_todo_system_prompt (some s)) "Current Todos"
            = true) := by
  refine ⟨rfl, ?_, prompt_no_current_todos, ?_, ?_⟩
  · intro s h
    simp [get_todo_system_prompt, h]
  · intro s h
    have h2 : get_todo_system_prompt (some s) = TODO_SYSTEM_PROMPT := by
      simp [get_todo_system_prompt, h]
    rw [h2]
    exact prompt_no_current_todos
  · intro s hne
    obtain ⟨t, ts, he⟩ := List.exists_cons_of_ne_nil hne
    have m : ∀ X : String,
        ("\n" : String) ++ ("\n" ++ ("## Current Todos" ++ ("\n" ++ X)))
          = "\n\n## Current Todos\n" ++ X := by
      intro X
      rw [← String.append_assoc, ← String.append_assoc, ← String.append_assoc]
      have hm : ("\n" : String) ++ "\n" ++ "## Current Todos" ++ "\n"
          = "\n\n## Current Todos\n" := by decide
      rw [hm]
    have heq : get_todo_system_prompt (some s) =
        TODO_SYSTEM_PROMPT ++ "\n\n## Current Todos\n"
          ++ joinLines (s.todos.map promptLine) := by
      rw [get_todo_system_prompt,
        if_neg (show ¬(s.todos.isEmpty = true) by simp [he])]
      rw [joinLines_cons _ _ (by simp),
        joinLines_cons _ _ (by simp),
        joinLines_cons _ _ (by simp [he]),
        String.empty_append]
      simp only [String.append_assoc]
      rw [m]
    refine ⟨heq, ?_⟩
    rw [heq, containsStr]
    simp only [decide_eq_true_eq, String.data_append]
    have h1 : ("Current Todos" : String).data <:+:
        ("\n\n## Current Todos\n" : String).data := by decide
    exact (h1.trans (List.suffix_append _ _).isInfix).trans
      (List.prefix_append _ _).isInfix

/-- C5 witness: an empty-list storage and a one-item storage. -/
theorem system_prompt_spec_witness :
    ((⟨[]⟩ : TodoStorage).todos = [])
    ∧ get_todo_system_prompt (some ⟨[]⟩) = TODO_SYSTEM_PROMPT
    ∧ containsStr (get_todo_system_prompt (some ⟨[]⟩)) "Current Todos" = false
    ∧ ((⟨[⟨"Task 1", "pending", "W"⟩]⟩ : TodoStorage).todos ≠ [])
    ∧ get_todo_system_prompt (some ⟨[⟨"Task 1", "pending", "W"⟩]⟩) =
        TODO_SYSTEM_PROMPT ++ "\n\n## Current Todos\n"
          ++ joinLines ([⟨"Task 1", "pending", "W"⟩].map promptLine)
    ∧ containsStr
        (get_todo_system_prompt (some ⟨[⟨"Task 1", "pending", "W"⟩]⟩))
        "Current Todos" = true :=
  ⟨rfl, system_prompt_spec.2.1 _ rfl, system_prompt_spec.2.2.2.1 _ rfl,
   by decide,
   (system_prompt_spec.2.2.2.2 _ (by decide)).1,
   (system_prompt_spec.2.2.2.2 _ (by decide)).2⟩

/-- C6: toolsets created via the factory with no storage argument capture
fresh storages at distinct locations, and every sequence of write
operations through the toolset bound to one storage leaves the list held
by any other storage unchanged. -/
theorem default_toolsets_isolated (w : World)
    (batches : List (List RawItem)) :
    (create_todo_toolset w).2
      ≠ (create_todo_toolset (create_todo_toolset w).1).2
    ∧ ∀ (w2 : World) (i j : Nat), i ≠ j →
        (runWrites w2 i batches).getStore j = w2.getStore j := by
  constructor
  · simp [create_todo_toolset]
  · intro w2 i j hij
    induction batches generalizing w2 with
    | nil => rfl
    | cons b bs ih =>
      have h1 : runWrites w2 i (b :: bs)
          = runWrites ((toolsetWrite w2 i b).1) i bs := rfl
      rw [h1, ih]
      exact getStore_setStore_ne w2 hij _

/-- C6 witness: two writes through storage 0 leave the list of storage 1
unchanged in a concrete two-storage world. -/
theorem default_toolsets_isolated_witness :
    ((0 : Nat) ≠ 1)
    ∧ (runWrites ⟨[[], [⟨"Keep", "pending", "W"⟩]]⟩ 0
        ([[("A", "pending", "WA")], [("B", "completed", "WB")]]
          : List (List RawItem))).getStore 1 =
      (⟨[[], [⟨"Keep", "pending", "W"⟩]]⟩ : World).getStore 1 :=
  ⟨by decide,
   (default_toolsets_isolated ⟨[[], [⟨"Keep", "pending", "W"⟩]]⟩
     ([[("A", "pending", "WA")], [("B", "completed", "WB")]]
       : List (List RawItem))).2
     ⟨[[], [⟨"Keep", "pending", "W"⟩]]⟩ 0 1 (by decide)⟩

/-- C8: a default in-memory storage holds the empty list at construction:
the dataclass default is empty, and a freshly allocated default storage
(as made by the toolset factory) reads back as empty. -/
theorem default_storage_starts_empty :
    TodoStorage.default.todos = []
    ∧ ∀ w : World,
        (create_todo_toolset w).1.getStore (create_todo_toolset w).2 = [] := by
  refine ⟨rfl, ?_⟩
  intro w
  simp [create_todo_toolset, World.getStore, List.getElem?_concat_length]

/-- C9: calling the write tool with the empty input list is accepted for
every prior storage state: it validates, clears the storage to the empty
list, and returns `"Updated 0 todos: 0 completed, 0 in progress,
0 pending"`. -/
theorem write_empty_list_accepted (store : List Todo) :
    callWriteTool [] store =
      ([], .ok "Updated 0 todos: 0 completed, 0 in progress, 0 pending") :=
  rfl

/-- C10: the read tool and the prompt renderer never modify storage: a
call returns exactly the storage state it was given alongside its
output. -/
theorem read_and_render_do_not_mutate (store : List Todo)
    (st : Option TodoStorage) :
    (callReadTool store).1 = store ∧ (callPromptRenderer st).1 = st :=
  ⟨rfl, rfl⟩

/-- C7 counterexample: the claim says the read tool never fails and that a
record with a non-enumerated status is rendered with the pending glyph
rather than causing an error; but on such a record the summary-tally dict
access raises a `KeyError` (modelled as `none`), so the read tool does
fail. -/
theorem read_todos_unknown_status_fails :
    read_todos [⟨"Fix bug", "weird", "Fixing bug"⟩] = none :=
  rfl

/-- C7 amended: for every stored list whose statuses are all among the
three enumerated values the read tool never fails and returns a string;
the glyph lookup itself does fall back to the pending glyph `"[ ]"` on a
non-enumerated status, but the summary tally raises a `KeyError` on such
a record, so the tool as a whole is not total on them. -/
theorem read_todos_total_on_enumerated :
    (∀ l : List Todo, (∀ t ∈ l, validStatus t.status = true) →
      ∃ s, read_todos l = some s)
    ∧ (∀ s : String, validStatus s = false → statusIcon s = "[ ]")
    ∧ (∀ l : List Todo, (∃ t ∈ l, validStatus t.status = false) →
      tally l = none) := by
  refine ⟨?_, ?_, ?_⟩
  · intro l hv
    match l with
    | [] => exact ⟨_, rfl⟩
    | t :: ts =>
      rw [read_todos, if_neg (show ¬((t :: ts).isEmpty = true) by simp)]
      rw [tally_valid _ hv]
      exact ⟨_, rfl⟩
  · intro s hs
    simp only [validStatus, Bool.or_eq_false_iff] at hs
    simp [statusIcon, hs.1.1, hs.1.2, hs.2]
  · intro l hbad
    rw [tally, tallyFrom_invalid l hbad]

/-- C7 witness: a valid one-item list on which the read tool succeeds,
the pending-glyph fallback on a non-enumerated status, and the tally
failure on a record holding one. -/
theorem read_todos_total_on_enumerated_witness :
    (∀ t ∈ ([⟨"Task 1", "pending", "W"⟩] : List Todo),
        validStatus t.status = true)
    ∧ (∃ s, read_todos [⟨"Task 1", "pending", "W"⟩] = some s)
    ∧ validStatus "weird" = false
    ∧ statusIcon "weird" = "[ ]"
    ∧ (∃ t ∈ ([⟨"Fix bug", "weird", "Fixing bug"⟩] : List Todo),
        validStatus t.status = false)
    ∧ tally [⟨"Fix bug", "weird", "Fixing bug"⟩] = none :=
  ⟨by decide,
   read_todos_total_on_enumerated.1 _ (by decide),
   by decide,
   read_todos_total_on_enumerated.2.1 "weird" (by decide),
   by decide,
   read_todos_total_on_enumerated.2.2 _ (by decide)⟩

end PydanticAiTodo
